import Mathlib

/-!
Verification of the JIMM controller-monitor, watcher, gateway RPC and
orchestrator logic against its specification.

The Go sources are embedded shallowly:

* `Monitor` — the controller monitor (`internal/monitor`): the delta reducer
  (`watcherState.addDelta`, `adjustCount`, `modelInfo`) and the lease loop
  (`leaseUpdater`, `renewLease`, `acquireLease`).
* `Jimm` — the newer watcher (`internal/jimm/watcher.go`): dying-model
  reconciliation (`checkControllerModels`, `checkDyingModel`) and delta
  handling (`handleDelta`, `deleteModel`).
* `JujuAPI` — the RPC gateway (`internal/jujuapi/websocket.go`): facade
  dispatch (`FindMethod`) and the NotFound-to-Unauthorized masking at the
  model-operation boundary.
* `Jem` — orchestrator operations whose implementation is not among the
  provided sources; these are modelled from the specification (each such
  definition carries a `Modelled from the spec:` note) and checked against
  the behaviour pinned down by the package tests that are in the sources.

Go machine integers are modelled as `Int` (they never approach overflow in
the modelled logic); Go maps keyed by entity id with boolean presence are
modelled as duplicate-free lists of keys; `map[K]V` is modelled as an
association list.
-/

namespace Monitor

/-- Entity kinds carried by multiwatcher deltas (source: the four cases of
`watcherState.addDelta`: `ModelInfo`, `UnitInfo`, `ApplicationInfo`,
`MachineInfo`). -/
inductive EntityKind
  | model
  | unit
  | application
  | machine
deriving DecidableEq

/-- Source: `multiwatcher.EntityId` — kind, owning model UUID and id. -/
structure EntityId where
  kind : EntityKind
  modelUUID : String
  id : String
deriving DecidableEq

/-- Source: `multiwatcher.Delta`. The `life` field models the `Life` carried
by a `ModelInfo` entity; it is only inspected for model deltas. -/
structure Delta where
  removed : Bool
  entity : EntityId
  life : String := ""
deriving DecidableEq

/-- Source: `mongodoc.ControllerStats`. The source counts applications in the
field named `ServiceCount`. -/
structure ControllerStats where
  modelCount : Int := 0
  unitCount : Int := 0
  serviceCount : Int := 0
  machineCount : Int := 0
deriving DecidableEq

/-- Source: `lifeChange modelChange = 1 << iota`. -/
def lifeChange : Nat := 1 <<< 0

/-- Source: `countsChange`, the second bit of the change mask. -/
def countsChange : Nat := 1 <<< 1

/-- The change mask a fresh model entry is created with. The source writes
`changed: ^0`, i.e. every bit set; only the `lifeChange` and `countsChange`
bits are ever inspected, so the embedding records exactly those two bits. -/
def allChange : Nat := lifeChange ||| countsChange

/-- Source: `params.EntityCount` keys used in `modelInfo.counts`. -/
inductive EntityCount
  | unitCount
  | machineCount
  | applicationCount
deriving DecidableEq

/-- The per-model counts map. The Go map `map[params.EntityCount]int` is
created holding exactly the three keys below (see `watcherState.modelInfo`),
so it is modelled as a record with one field per key. -/
structure EntityCounts where
  unitCount : Int := 0
  machineCount : Int := 0
  applicationCount : Int := 0
deriving DecidableEq

/-- Add `n` to the count stored under key `k` (source: `info.counts[kind] += n`). -/
def EntityCounts.add (c : EntityCounts) (k : EntityCount) (n : Int) : EntityCounts :=
  match k with
  | .unitCount => { c with unitCount := c.unitCount + n }
  | .machineCount => { c with machineCount := c.machineCount + n }
  | .applicationCount => { c with applicationCount := c.applicationCount + n }

/-- Source: `modelInfo` — per-model information kept by the reducer. -/
structure ModelInfoW where
  uuid : String
  life : String := ""
  counts : EntityCounts := {}
  changed : Nat := 0
deriving DecidableEq

/-- Source: `(*modelInfo).adjustCount`. -/
def ModelInfoW.adjustCount (info : ModelInfoW) (kind : EntityCount) (n : Int) : ModelInfoW :=
  if n ≠ 0 then
    { info with counts := info.counts.add kind n, changed := info.changed ||| countsChange }
  else
    info

/-- Source: `(*modelInfo).setLife`. -/
def ModelInfoW.setLife (info : ModelInfoW) (life : String) : ModelInfoW :=
  if life ≠ info.life then
    { info with life := life, changed := info.changed ||| lifeChange }
  else
    info

/-- Source: `watcherState`. The Go map `entities map[EntityId]bool` only ever
stores `true` values (a key is deleted rather than set to `false`), so it is
modelled as the duplicate-free list of present keys. `models` models the
`map[string]*modelInfo` as an association list. -/
structure WatcherState where
  entities : List EntityId := []
  changed : Bool := false
  stats : ControllerStats := {}
  models : List (String × ModelInfoW) := []

/-- Source: `newWatcherState` — empty maps, zero statistics. -/
def initialWatcherState : WatcherState := {}

/-- The entity-set part of `(*watcherState).adjustCount`: returns the new set
of known entities and the diff (−1, 0 or +1) the counter is adjusted by. -/
def adjustEntities (entities : List EntityId) (removed : Bool) (id : EntityId) :
    List EntityId × Int :=
  if removed then
    if id ∈ entities then (entities.erase id, -1) else (entities, 0)
  else
    if id ∈ entities then (entities, 0) else (id :: entities, 1)

/-- Source: `(*watcherState).adjustCount`. The Go code takes a pointer to the
counter field; the embedding takes the corresponding getter and setter. -/
def WatcherState.adjustCount (w : WatcherState) (get : ControllerStats → Int)
    (set : ControllerStats → Int → ControllerStats) (d : Delta) : WatcherState × Int :=
  let p := adjustEntities w.entities d.removed d.entity
  if p.2 ≠ 0 then
    ({ w with entities := p.1, stats := set w.stats (get w.stats + p.2), changed := true }, p.2)
  else
    ({ w with entities := p.1 }, p.2)

/-- The entry `watcherState.modelInfo` creates for a UUID it has not seen:
zero counts and (in the source) `changed: ^0` so that the first flush updates
both life and counts. -/
def newModelInfo (uuid : String) : ModelInfoW :=
  { uuid := uuid
    changed := allChange
    counts := { unitCount := 0, machineCount := 0, applicationCount := 0 } }

/-- Replace the entry stored under `uuid` (the Go code mutates the map entry
through the pointer returned by `modelInfo`). -/
def setEntry : List (String × ModelInfoW) → String → ModelInfoW → List (String × ModelInfoW)
  | [], uuid, info => [(uuid, info)]
  | (k, v) :: rest, uuid, info =>
    if k = uuid then (uuid, info) :: rest else (k, v) :: setEntry rest uuid info

/-- Source: `watcherState.modelInfo` followed by a mutation of the returned
entry: look the entry up, creating it as `newModelInfo` if absent, and apply
`f` to it in place. -/
def WatcherState.withModelInfo (w : WatcherState) (uuid : String)
    (f : ModelInfoW → ModelInfoW) : WatcherState :=
  match w.models.lookup uuid with
  | some info => { w with models := setEntry w.models uuid (f info) }
  | none => { w with models := (uuid, f (newModelInfo uuid)) :: w.models }

/-- Source: `(*watcherState).addDelta`. Machine deltas additionally enqueue an
`UpdateMachineInfo` database write through the runner; that write does not
touch the reducer state and is omitted. -/
def WatcherState.addDelta (w : WatcherState) (d : Delta) : WatcherState :=
  match d.entity.kind with
  | .model =>
    let p := w.adjustCount (fun s => s.modelCount) (fun s v => { s with modelCount := v }) d
    let life := if d.removed then "dead" else d.life
    p.1.withModelInfo d.entity.modelUUID (fun i => i.setLife life)
  | .unit =>
    let p := w.adjustCount (fun s => s.unitCount) (fun s v => { s with unitCount := v }) d
    p.1.withModelInfo d.entity.modelUUID (fun i => i.adjustCount .unitCount p.2)
  | .application =>
    let p := w.adjustCount (fun s => s.serviceCount) (fun s v => { s with serviceCount := v }) d
    p.1.withModelInfo d.entity.modelUUID (fun i => i.adjustCount .applicationCount p.2)
  | .machine =>
    let p := w.adjustCount (fun s => s.machineCount) (fun s v => { s with machineCount := v }) d
    p.1.withModelInfo d.entity.modelUUID (fun i => i.adjustCount .machineCount p.2)

/-- Consume a sequence of deltas in order (the body of the watch loop runs
`addDelta` on each delta of each batch, in order). -/
def processDeltas (ds : List Delta) : WatcherState :=
  ds.foldl WatcherState.addDelta initialWatcherState

/-- Flush condition for a per-model life update (source: the watch loop emits
`SetModelLife` when `info.changed&lifeChange != 0`). -/
def flushEmitsLife (info : ModelInfoW) : Bool :=
  info.changed &&& lifeChange ≠ 0

/-- Flush condition for a per-model counts update (source: the watch loop
emits `UpdateModelCounts` when `info.changed&countsChange != 0`). -/
def flushEmitsCounts (info : ModelInfoW) : Bool :=
  info.changed &&& countsChange ≠ 0

/-- The statistics counter corresponding to an entity kind (applications are
counted in the source field `ServiceCount`). -/
def statOf (s : ControllerStats) (k : EntityKind) : Int :=
  match k with
  | .model => s.modelCount
  | .unit => s.unitCount
  | .application => s.serviceCount
  | .machine => s.machineCount

/-- The last delta of `ds` whose entity is `e`, if any. -/
def lastDeltaFor (ds : List Delta) (e : EntityId) : Option Delta :=
  ds.reverse.find? (fun d => decide (d.entity = e))

/-- Specification-level liveness: an entity id is live after a prefix when it
has appeared in a non-removed delta that no later removed delta for the same
id cancels — equivalently, when the last delta mentioning it is non-removed. -/
def specLive (ds : List Delta) (e : EntityId) : Bool :=
  match lastDeltaFor ds e with
  | some d => !d.removed
  | none => false

/-- The distinct entity ids of kind `k` that are live after `ds`. -/
def liveIds (ds : List Delta) (k : EntityKind) : List EntityId :=
  ((ds.map (fun d => d.entity)).dedup).filter (fun e => decide (e.kind = k) && specLive ds e)

/-- The number of distinct live entity ids of kind `k` after `ds`. -/
def distinctLiveCount (ds : List Delta) (k : EntityKind) : Nat :=
  (liveIds ds k).length

/-- The reducer invariant tying the concrete `watcherState` after a prefix of
deltas to the specification-level live set: the known-entity set is
duplicate-free and holds exactly the live ids, and every statistics counter
equals the number of known entities of its kind. -/
structure ReducerInv (ds : List Delta) (w : WatcherState) : Prop where
  nodup : w.entities.Nodup
  mem : ∀ e, e ∈ w.entities ↔ specLive ds e = true
  stat : ∀ k, statOf w.stats k =
    ((w.entities.filter (fun e => decide (e.kind = k))).length : Int)

/-! Lease loop (`leaseUpdater`, `renewLease`, `acquireLease`). Instants are
modelled as `Int` (Go nanoseconds since epoch) and durations as `Nat`
(the configured lease duration is a positive constant). -/

/-- The instant the lease loop's sleep wakes at. Source (`leaseUpdater`):
`renewTime := m.leaseExpiry.Add(-leaseExpiryDuration / 4)`. Go `/` truncates
toward zero, so for a non-negative duration `-d / 4 = -(d / 4)` with natural
division. -/
def renewTime (leaseExpiry : Int) (leaseExpiryDuration : Nat) : Int :=
  leaseExpiry + -((leaseExpiryDuration / 4 : Nat) : Int)

/-- The compare-and-swap request sent to the lease manager. -/
structure LeaseRequest where
  oldExpiry : Int
  oldOwner : String
  newExpiry : Int
  newOwner : String
deriving DecidableEq

/-- Errors the lease-renewal path distinguishes. -/
inductive LeaseError
  | leaseUnavailable
  | controllerRemoved
  | other (msg : String)
deriving DecidableEq

/-- Source: `acquireLease` — it calls
`j.AcquireMonitorLease(ctlPath, oldExpiry, oldOwner, Clock.Now().Add(leaseExpiryDuration), newOwner)`,
always requesting an expiry `leaseExpiryDuration` from now. -/
def acquireLeaseRequest (leaseExpiry : Int) (ownerId : String) (now : Int)
    (leaseExpiryDuration : Nat) (newOwner : String) : LeaseRequest :=
  { oldExpiry := leaseExpiry
    oldOwner := ownerId
    newExpiry := now + (leaseExpiryDuration : Int)
    newOwner := newOwner }

/-- Source: `(*controllerMonitor).renewLease` — for a renewal (`renew = true`)
the new owner is the monitor's own id; on success `m.leaseExpiry` is set to
the expiry time the lease manager returned. The lease manager itself is a
collaborator and is passed in as `manager`; the result is the new value of
`m.leaseExpiry`. -/
def renewLease (leaseExpiry : Int) (ownerId : String) (renew : Bool) (now : Int)
    (leaseExpiryDuration : Nat) (manager : LeaseRequest → Except LeaseError Int) :
    Except LeaseError Int :=
  let newOwner := if renew then ownerId else ""
  match manager (acquireLeaseRequest leaseExpiry ownerId now leaseExpiryDuration newOwner) with
  | .ok t => .ok t
  | .error e => .error e

end Monitor

namespace Jimm

/-- Error codes distinguished by the watcher code in `internal/jimm/watcher.go`. -/
inductive ErrCode
  | notFound
  | unauthorized
  | databaseLocked
  | other (msg : String)
deriving DecidableEq

/-- Source: `sql.NullString` — a string plus a validity flag. -/
structure NullString where
  string : String := ""
  valid : Bool := false
deriving DecidableEq

/-- Source: `dbmodel.Model`, restricted to the fields the watcher reads:
primary key `ID`, `UUID` (a `sql.NullString`), `ControllerID` and `Life`. -/
structure DbModel where
  id : Nat
  uuid : NullString
  controllerID : Nat
  life : String
deriving DecidableEq

/-- Source: `dbmodel.Application` (key fields only). -/
structure DbApplication where
  modelID : Nat
  name : String
deriving DecidableEq

/-- Source: `dbmodel.Machine` (key fields only). -/
structure DbMachine where
  modelID : Nat
  machineID : String
deriving DecidableEq

/-- Source: `dbmodel.Unit` (key fields only). -/
structure DbUnit where
  modelID : Nat
  name : String
deriving DecidableEq

/-- The watcher-relevant slice of the JIMM database. -/
structure Database where
  models : List DbModel := []
  applications : List DbApplication := []
  machines : List DbMachine := []
  units : List DbUnit := []
deriving DecidableEq

/-- State threaded through the dying-model check: the store, plus the trace of
UUIDs the check has asked the controller about (the `api.ModelInfo` calls). -/
structure WatchSt where
  store : List DbModel := []
  queried : List String := []
deriving DecidableEq

/-- Source: `Database.DeleteModel` as used by `checkDyingModel` — remove the
row with the given primary key. -/
def deleteModelRow (store : List DbModel) (id : Nat) : List DbModel :=
  store.filter (fun m => decide (m.id ≠ id))

/-- Source: the `checkDyingModel` closure in `watchController`. For a model
whose recorded life is `"dying"` it asks the controller for model info; on a
`NotFound` answer it deletes the local row; any other error aborts the check;
an OK answer leaves the row alone. `api` is the downstream controller's
`ModelInfo` call, keyed by model UUID. -/
def checkDyingModel (api : String → Except ErrCode Unit) (st : WatchSt) (m : DbModel) :
    Except ErrCode WatchSt :=
  if m.life = "dying" then
    let st1 : WatchSt := { st with queried := st.queried ++ [m.uuid.string] }
    match api m.uuid.string with
    | .ok _ => .ok st1
    | .error e =>
      if e = .notFound then
        .ok { st1 with store := deleteModelRow st1.store m.id }
      else
        .error e
  else
    .ok st

/-- Source: `(*Watcher).checkControllerModels` — iterate the store's models
for this controller (the caller passes that list in `ms`), skipping models
whose UUID is not valid ("currently being initialised"), running the check on
each remaining model and recording its UUID-to-ID mapping. -/
def checkControllerModels (check : WatchSt → DbModel → Except ErrCode WatchSt)
    (ms : List DbModel) (st : WatchSt) (modelIDs : List (String × Nat)) :
    Except ErrCode (WatchSt × List (String × Nat)) :=
  match ms with
  | [] => .ok (st, modelIDs)
  | m :: rest =>
    if m.uuid.valid = false then
      checkControllerModels check rest st modelIDs
    else
      match check st m with
      | .error e => .error e
      | .ok stNew => checkControllerModels check rest stNew (modelIDs ++ [(m.uuid.string, m.id)])

/-- The models of `store` that belong to controller `ctlID`
(source: `ForEachControllerModel`). -/
def controllerModels (store : List DbModel) (ctlID : Nat) : List DbModel :=
  store.filter (fun m => decide (m.controllerID = ctlID))

/-- The initial reconciliation `watchController` performs before consuming
deltas: `checkControllerModels` with the `checkDyingModel` check. -/
def watchControllerInit (api : String → Except ErrCode Unit) (ctlID : Nat)
    (store : List DbModel) : Except ErrCode (WatchSt × List (String × Nat)) :=
  checkControllerModels (checkDyingModel api) (controllerModels store ctlID)
    { store := store, queried := [] } []

/-- A delta as consumed by `handleDelta`: the entity id carries the kind as a
string (the source switches on `eid.Kind`), the owning model UUID and the
entity's own id; `life` models the `Life` field of a `ModelUpdate` entity. -/
structure WDelta where
  removed : Bool
  kind : String
  modelUUID : String
  id : String
  life : String := ""
deriving DecidableEq

/-- Look a model up by primary key (source: `db.GetModel` on a model with only
`ID` set). -/
def getModelById (models : List DbModel) (id : Nat) : Option DbModel :=
  models.find? (fun m => decide (m.id = id))

/-- Source: `(*Watcher).deleteModel` — fetch the row (a `NotFound` is
tolerated, leaving the zero model whose life is `""`); if the recorded life is
not `"dying"` the row is kept, otherwise it is deleted. -/
def deleteModel (db : Database) (modelID : Nat) : Database :=
  match getModelById db.models modelID with
  | none => db
  | some m =>
    if m.life ≠ "dying" then db
    else { db with models := deleteModelRow db.models modelID }

/-- Source: `(*Watcher).updateModel` — get-or-default then
`FromJujuModelUpdate` and an upsert. Only the `life` field matters to the
properties proved here; an inserted row gets zero values elsewhere. -/
def updateModel (db : Database) (modelID : Nat) (life : String) : Database :=
  match getModelById db.models modelID with
  | some _ =>
    { db with models := db.models.map (fun x => if x.id = modelID then { x with life := life } else x) }
  | none =>
    { db with models := db.models ++ [{ id := modelID, uuid := {}, controllerID := 0, life := life }] }

/-- Source: `(*Watcher).updateApplication` (get-or-default then upsert). -/
def updateApplication (db : Database) (modelID : Nat) (name : String) : Database :=
  if db.applications.any (fun a => a.modelID = modelID ∧ a.name = name) then db
  else { db with applications := db.applications ++ [{ modelID := modelID, name := name }] }

/-- Source: `(*Watcher).updateMachine` (get-or-default then upsert). -/
def updateMachine (db : Database) (modelID : Nat) (machineID : String) : Database :=
  if db.machines.any (fun a => a.modelID = modelID ∧ a.machineID = machineID) then db
  else { db with machines := db.machines ++ [{ modelID := modelID, machineID := machineID }] }

/-- Source: `(*Watcher).updateUnit` (get-or-default then upsert). -/
def updateUnit (db : Database) (modelID : Nat) (name : String) : Database :=
  if db.units.any (fun a => a.modelID = modelID ∧ a.name = name) then db
  else { db with units := db.units ++ [{ modelID := modelID, name := name }] }

/-- Source: `(*Watcher).handleDelta`. `modelIDf` resolves a model UUID to the
local primary key; a result of 0 means the delta is ignored. The Go `switch`
on the entity kind string is written as the equivalent chain of string
comparisons; unknown kinds fall through with no effect. -/
def handleDelta (modelIDf : String → Nat) (db : Database) (d : WDelta) : Database :=
  let modelID := modelIDf d.modelUUID
  if modelID = 0 then db
  else if d.kind = "application" then
    if d.removed then
      { db with applications :=
          db.applications.filter (fun a => decide (¬(a.modelID = modelID ∧ a.name = d.id))) }
    else updateApplication db modelID d.id
  else if d.kind = "machine" then
    if d.removed then
      { db with machines :=
          db.machines.filter (fun a => decide (¬(a.modelID = modelID ∧ a.machineID = d.id))) }
    else updateMachine db modelID d.id
  else if d.kind = "model" then
    if d.removed then deleteModel db modelID
    else updateModel db modelID d.life
  else if d.kind = "unit" then
    if d.removed then
      { db with units :=
          db.units.filter (fun a => decide (¬(a.modelID = modelID ∧ a.name = d.id))) }
    else updateUnit db modelID d.id
  else db

end Jimm

namespace JujuAPI

/-- Source: the `facades` map of `internal/jujuapi/websocket.go` — facade
name and version, mapped to the name of the implementing root method. -/
def facades : List ((String × Int) × String) :=
  [ (("Admin", 3), "Admin")
  , (("Cloud", 1), "Cloud")
  , (("ModelManager", 2), "ModelManager")
  , (("Pinger", 1), "Pinger") ]

/-- The methods each facade implementation exposes (source: the exported
methods of the `admin`, `cloud`, `modelManager` and `pinger` types, which is
what `rpcreflect.ValueOf(reflect.ValueOf(root{h})).FindMethod` dispatches
over). -/
def facadeMethods : String → List String
  | "Admin" => ["Login", "RedirectInfo"]
  | "Cloud" => ["Cloud", "CloudDefaults", "Credentials", "UpdateCredentials"]
  | "ModelManager" => ["ListModels", "ModelInfo", "CreateModel"]
  | "Pinger" => ["Ping"]
  | _ => []

/-- Outcome of `FindMethod`: an unimplemented-call error
(`rpcreflect.CallNotImplementedError`, also produced by `rpcreflect` when a
registered facade lacks the method), a coded `rpc.RequestError`, or a method
caller. -/
inductive FindMethodResult
  | callNotImplemented (rootMethod : String) (version : Int)
  | requestError (code : String) (message : String)
  | methodCaller (facadeImpl : String) (method : String)
deriving DecidableEq

/-- Source: `jujuparams.CodeNotSupported`. -/
def codeNotSupported : String := "not supported"

/-- Source: `(*wsHandler).FindMethod`. `authUsername` is
`h.jem.Auth.Username` (empty until login succeeds). The `resolveUUID` step
only fills handler caches and is omitted. -/
def findMethod (authUsername : String) (rootName : String) (version : Int)
    (methodName : String) : FindMethodResult :=
  if authUsername = "" ∧ rootName ≠ "Admin" then
    .callNotImplemented rootName version
  else if rootName = "Admin" ∧ version < 3 then
    .requestError codeNotSupported "JAAS does not support login from old clients"
  else
    match facades.lookup (rootName, version) with
    | some rn =>
      if methodName ∈ facadeMethods rn then .methodCaller rn methodName
      else .callNotImplemented rootName version
    | none => .callNotImplemented rootName version

/-- Error kinds flowing through the model-operation handlers. -/
inductive JujuErr
  | notFound
  | unauthorized
  | badRequest
  | other (msg : String)
deriving DecidableEq

/-- The masking step each model operation applies (source, e.g. `ModelInfo`:
`if errgo.Cause(err) == params.ErrNotFound { err = params.ErrUnauthorized }`). -/
def maskNotFound (e : JujuErr) : JujuErr :=
  if e = .notFound then .unauthorized else e

/-- Source: the per-entity body of `(*controllerRoot).ModelInfo` — parse the
model tag (failure is a `BadRequest`), run `GetModelInfo`, and mask a
`NotFound` cause as `Unauthorized`. `parseTag` and `getModelInfo` are the
collaborators. The result is the error slot of the entity's
`ModelInfoResult`. -/
def modelInfoResultError (parseTag : String → Except JujuErr String)
    (getModelInfo : String → Except JujuErr Unit) (tag : String) : Option JujuErr :=
  match parseTag tag with
  | .error _ => some .badRequest
  | .ok uuid =>
    match getModelInfo uuid with
    | .ok _ => none
    | .error e => some (maskNotFound e)

/-- Source: `(*controllerRoot).ModelInfo` over a batch of entities. -/
def modelInfoResults (parseTag : String → Except JujuErr String)
    (getModelInfo : String → Except JujuErr Unit) (tags : List String) : List (Option JujuErr) :=
  tags.map (modelInfoResultError parseTag getModelInfo)

/-- The action field of a `ModifyModelAccess` change. -/
inductive ModifyAction
  | grant
  | revoke
  | invalid (s : String)
deriving DecidableEq

/-- Source: the per-change body of `(*controllerRoot).ModifyModelAccess` —
parse the model and user tags (failures are `BadRequest`), dispatch to
`GrantModel`/`RevokeModel` (an unknown action is a `BadRequest`), and mask a
`NotFound` cause as `Unauthorized`. -/
def modifyModelAccessResultError (parseModelTag : String → Except JujuErr String)
    (parseUserTag : String → Except JujuErr String)
    (grantModel : String → String → Except JujuErr Unit)
    (revokeModel : String → String → Except JujuErr Unit)
    (modelTag userTag : String) (action : ModifyAction) : Option JujuErr :=
  match parseModelTag modelTag with
  | .error _ => some .badRequest
  | .ok uuid =>
    match parseUserTag userTag with
    | .error _ => some .badRequest
    | .ok user =>
      let r : Except JujuErr Unit :=
        match action with
        | .grant => grantModel uuid user
        | .revoke => revokeModel uuid user
        | .invalid _ => .error .badRequest
      match r with
      | .ok _ => none
      | .error e => some (maskNotFound e)

/-- Source: the per-entity body of `(*controllerRoot).DumpModels`,
`DumpModelsV3` and `DumpModelsDB` — all three run `modelWithConnection` and
then mask a `NotFound` cause as `Unauthorized`. -/
def dumpModelResultError (modelWithConnection : String → Except JujuErr Unit)
    (tag : String) : Option JujuErr :=
  match modelWithConnection tag with
  | .ok _ => none
  | .error e => some (maskNotFound e)

end JujuAPI

namespace Jem

/-- Errors distinguished by the orchestrator operations modelled below. -/
inductive JemErr
  | notFound
  | unauthorized
  | ambiguousChoice
  | alreadyExists
deriving DecidableEq

/-- Source: `params.CredentialPath` — cloud, user and credential name. -/
structure CredentialPath where
  cloud : String
  user : String
  name : String
deriving DecidableEq

/-- A local model row, restricted to what the modelled operations read. -/
structure ModelDoc where
  path : String
  cloud : String
  credential : Option CredentialPath
deriving DecidableEq

/-- Modelled from the spec: the credential-selection step of
`jem.JEM.CreateModel` (the `internal/jem` implementation is not among the
provided sources; only its tests are). Spec §4.G CreateModel step 2: "If
`credentialPath` is unset: enumerate caller's credentials for `cloud`; if
exactly one, use it; if more than one, fail `ErrAmbiguousChoice`; if none,
proceed with no credential." `callerCreds` is the caller's credential list. -/
def selectCredential (callerCreds : List CredentialPath) (cloud : String)
    (specified : Option CredentialPath) : Except JemErr (Option CredentialPath) :=
  match specified with
  | some c => .ok (some c)
  | none =>
    match callerCreds.filter (fun c => decide (c.cloud = cloud)) with
    | [] => .ok none
    | [c] => .ok (some c)
    | _ => .error .ambiguousChoice

/-- Modelled from the spec: `jem.JEM.CreateModel`'s persistence of the new
model row — a row is added only when every earlier step succeeded, so a
failed credential selection persists nothing. The result pairs the store
after the call with the error, if any. -/
def createModel (store : List ModelDoc) (callerCreds : List CredentialPath)
    (path cloud : String) (specified : Option CredentialPath) :
    List ModelDoc × Option JemErr :=
  match selectCredential callerCreds cloud specified with
  | .error e => (store, some e)
  | .ok cred => (store ++ [{ path := path, cloud := cloud, credential := cred }], none)

/-- Modelled from the spec: `jem.JEM.DestroyModel` (implementation not among
the provided sources). Spec §4.G: "A second destroy on an already-gone model
returns `ErrNotFound` only if no local row exists; otherwise it is idempotent
success" — matching `TestDestroyModel`, where a destroy with the local row
present succeeds (and removes the row) even when the controller no longer has
the model, and a destroy with no local row fails with
`model "bob/model" not found`. -/
def destroyModel (store : List ModelDoc) (path : String) : List ModelDoc × Option JemErr :=
  if store.any (fun m => decide (m.path = path)) then
    (store.filter (fun m => decide (m.path ≠ path)), none)
  else
    (store, some .notFound)

/-- Source: `(*controllerRoot).DestroyModelsV4`
(`internal/jujuapi`, in the provided sources) — the per-model error slot:
a `NotFound` cause from `jem.DestroyModel` is suppressed ("It isn't an error
to try and destroy an already destroyed model"). -/
def destroyModelsV4Error (jemResult : Option JemErr) : Option JemErr :=
  match jemResult with
  | some e => if e = .notFound then none else some e
  | none => none

/-- Source: `params.ACL`. -/
structure ACL where
  read : List String := []
  write : List String := []
  admin : List String := []
deriving DecidableEq

/-- The access levels the downstream controller accepts for a model. -/
def validAccess : List String := ["read", "write", "admin"]

/-- Modelled from the spec: the downstream controller's grant/revoke call,
which rejects an unknown access level with the message
`"<level>" model access not valid` surfaced verbatim
(`TestGrantModelControllerFailure`, `TestRevokeModelControllerFailure`). -/
def controllerModifyAccess (access : String) : Except String Unit :=
  if access ∈ validAccess then .ok () else
    .error ("\"" ++ access ++ "\" model access not valid")

/-- Modelled from the spec: `jem.JEM.GrantModel` (implementation not among the
provided sources). Spec §4.G: "Push the grant/revoke to the downstream
controller first; only on success update the local ACL." The local update adds
the user to the read list, as `TestGrantModel` observes. The result pairs the
ACL after the call with the error, if any. -/
def grantModel (acl : ACL) (user access : String) : ACL × Option String :=
  match controllerModifyAccess access with
  | .error e => (acl, some e)
  | .ok _ =>
    ({ acl with read := if user ∈ acl.read then acl.read else acl.read ++ [user] }, none)

/-- Modelled from the spec: `jem.JEM.RevokeModel` (implementation not among
the provided sources) — push to the controller first, and only on success
remove the user from the local ACL (`TestRevokeModel`). -/
def revokeModel (acl : ACL) (user access : String) : ACL × Option String :=
  match controllerModifyAccess access with
  | .error e => (acl, some e)
  | .ok _ =>
    ({ acl with read := acl.read.filter (fun u => decide (u ≠ user)) }, none)

end Jem

/-! Theorems. -/

/-- C2, counterexample: the claim says the renewal sleep wakes
`¾·leaseDuration` before the held lease's expiry. In the code
(`renewTime := m.leaseExpiry.Add(-leaseExpiryDuration / 4)`) it wakes
`¼·leaseDuration` before expiry: with expiry 100 and lease duration 40 the
loop wakes at 90, not at 100 − ¾·40 = 70. -/
theorem C2_renewal_sleep_counterexample :
    Monitor.renewTime 100 40 = 90 ∧ (100 : Int) - ((3 * 40 / 4 : Nat) : Int) = 70 ∧
      (90 : Int) ≠ 70 := by
  refine ⟨by decide, by decide, by decide⟩

/-- C2 (amended): the renewal sleep wakes `¼·leaseDuration` before the held
lease's expiry (that is, after ¾ of the lease duration has elapsed); each
renewal requests a new expiry of `now + leaseDuration` from the lease manager
and updates the local `leaseExpiry` to the value the lease manager returned. -/
theorem C2_lease_loop (leaseExpiry : Int) (ownerId : String) (now : Int) (d : Nat)
    (manager : Monitor.LeaseRequest → Except Monitor.LeaseError Int) (t : Int)
    (h : manager (Monitor.acquireLeaseRequest leaseExpiry ownerId now d ownerId) =
      .ok t) :
    Monitor.renewTime leaseExpiry d = leaseExpiry - ((d / 4 : Nat) : Int) ∧
    (Monitor.acquireLeaseRequest leaseExpiry ownerId now d ownerId).newExpiry =
      now + (d : Int) ∧
    Monitor.renewLease leaseExpiry ownerId true now d manager = .ok t := by
  refine ⟨?_, rfl, ?_⟩
  · simp [Monitor.renewTime, sub_eq_add_neg]
  · simp [Monitor.renewLease, h]

/-- C2, witness: a concrete renewal with lease expiry 100, duration 40, now
160, where the lease manager grants expiry 200. -/
theorem C2_lease_loop_witness :
    Monitor.renewTime 100 40 = 100 - ((40 / 4 : Nat) : Int) ∧
    (Monitor.acquireLeaseRequest 100 "jimm" 160 40 "jimm").newExpiry = 160 + (40 : Int) ∧
    Monitor.renewLease 100 "jimm" true 160 40 (fun _ => .ok 200) = .ok 200 :=
  C2_lease_loop 100 "jimm" 160 40 (fun _ => .ok 200) 200 rfl

/-- C3: with no credential path specified, CreateModel uses the caller's sole
credential for the cloud if there is exactly one, fails with
`ErrAmbiguousChoice` and persists no model row if there is more than one, and
proceeds with no credential if there is none. -/
theorem C3_create_model_credential_selection (store : List Jem.ModelDoc)
    (creds : List Jem.CredentialPath) (path cloud : String) :
    (∀ c, creds.filter (fun k => decide (k.cloud = cloud)) = [c] →
      Jem.createModel store creds path cloud none =
        (store ++ [{ path := path, cloud := cloud, credential := some c }], none)) ∧
    (∀ c1 c2 rest, creds.filter (fun k => decide (k.cloud = cloud)) = c1 :: c2 :: rest →
      Jem.createModel store creds path cloud none =
        (store, some Jem.JemErr.ambiguousChoice)) ∧
    (creds.filter (fun k => decide (k.cloud = cloud)) = [] →
      Jem.createModel store creds path cloud none =
        (store ++ [{ path := path, cloud := cloud, credential := none }], none)) := by
  refine ⟨?_, ?_, ?_⟩
  · intro c h
    simp [Jem.createModel, Jem.selectCredential, h]
  · intro c1 c2 rest h
    simp [Jem.createModel, Jem.selectCredential, h]
  · intro h
    simp [Jem.createModel, Jem.selectCredential, h]

/-- C3, witness: the test scenario — bob has one credential for `dummy` and
gets it; alice has two and gets `ErrAmbiguousChoice` with nothing persisted;
charlie has none and proceeds with no credential. -/
theorem C3_create_model_credential_selection_witness :
    Jem.createModel [] [⟨"dummy", "bob", "cred1"⟩] "bob/test" "dummy" none =
      ([{ path := "bob/test", cloud := "dummy",
          credential := some ⟨"dummy", "bob", "cred1"⟩ }], none) ∧
    Jem.createModel [] [⟨"dummy", "alice", "cred1"⟩, ⟨"dummy", "alice", "cred2"⟩]
        "alice/test" "dummy" none = ([], some Jem.JemErr.ambiguousChoice) ∧
    Jem.createModel [] [] "charlie/test" "dummy" none =
      ([{ path := "charlie/test", cloud := "dummy", credential := none }], none) :=
  ⟨(C3_create_model_credential_selection [] [⟨"dummy", "bob", "cred1"⟩] "bob/test"
      "dummy").1 ⟨"dummy", "bob", "cred1"⟩ (by decide),
   (C3_create_model_credential_selection []
      [⟨"dummy", "alice", "cred1"⟩, ⟨"dummy", "alice", "cred2"⟩] "alice/test"
      "dummy").2.1 ⟨"dummy", "alice", "cred1"⟩ ⟨"dummy", "alice", "cred2"⟩ [] (by decide),
   (C3_create_model_credential_selection [] [] "charlie/test" "dummy").2.2 (by decide)⟩

/-- C4, counterexample: the claim says a second DestroyModel returns success
if the local row is already gone and NotFound otherwise; with the local row
gone, `jem.DestroyModel` in fact returns `NotFound` (the test expects
`model "bob/model" not found`). -/
theorem C4_destroy_idempotence_counterexample :
    Jem.destroyModel [] "bob/model" = ([], some Jem.JemErr.notFound) ∧
      some Jem.JemErr.notFound ≠ (none : Option Jem.JemErr) := by
  refine ⟨by decide, by decide⟩

/-- C4 (amended): a second DestroyModel call returns `NotFound` if the local
model row is already gone and success otherwise; at the external API boundary
(`DestroyModelsV4`) the `NotFound` is suppressed, so a repeated destroy
reports success to the client. -/
theorem C4_destroy_idempotence (store : List Jem.ModelDoc) (path : String) :
    (store.any (fun m => decide (m.path = path)) = false →
      Jem.destroyModel store path = (store, some Jem.JemErr.notFound)) ∧
    (store.any (fun m => decide (m.path = path)) = true →
      (Jem.destroyModel store path).2 = none) ∧
    Jem.destroyModelsV4Error (Jem.destroyModel store path).2 ≠
      some Jem.JemErr.notFound := by
  refine ⟨?_, ?_, ?_⟩
  · intro h
    simp [Jem.destroyModel, h]
  · intro h
    simp [Jem.destroyModel, h]
  · by_cases h : store.any (fun m => decide (m.path = path)) = true
    · simp [Jem.destroyModel, h, Jem.destroyModelsV4Error]
    · simp [Jem.destroyModel, h, Jem.destroyModelsV4Error]

/-- C4, witness: destroying `bob/model` with no local row yields `NotFound`;
with the row present it succeeds; in both cases `DestroyModelsV4` reports no
error. -/
theorem C4_destroy_idempotence_witness :
    Jem.destroyModel [] "bob/model" = ([], some Jem.JemErr.notFound) ∧
    (Jem.destroyModel [{ path := "bob/model", cloud := "dummy", credential := none }]
      "bob/model").2 = none ∧
    Jem.destroyModelsV4Error (Jem.destroyModel [] "bob/model").2 ≠
      some Jem.JemErr.notFound :=
  ⟨(C4_destroy_idempotence [] "bob/model").1 (by decide),
   (C4_destroy_idempotence [{ path := "bob/model", cloud := "dummy", credential := none }]
      "bob/model").2.1 (by decide),
   (C4_destroy_idempotence [] "bob/model").2.2⟩

/-- C5: GrantModel and RevokeModel push to the downstream controller first;
when the controller rejects the access level the error (ending in
`not valid`) is surfaced verbatim and the local ACL is left exactly as it
was; when the controller accepts, the call succeeds and only then is the
local ACL updated. -/
theorem C5_grant_revoke_controller_first (acl : Jem.ACL) (user access : String)
    (h : access ∉ Jem.validAccess) :
    Jem.grantModel acl user access =
      (acl, some ("\"" ++ access ++ "\" model access not valid")) ∧
    Jem.revokeModel acl user access =
      (acl, some ("\"" ++ access ++ "\" model access not valid")) := by
  constructor
  · simp [Jem.grantModel, Jem.controllerModifyAccess, h]
  · simp [Jem.revokeModel, Jem.controllerModifyAccess, h]

/-- C5, witness: granting or revoking the unknown level `superpowers` fails
with `"superpowers" model access not valid` and leaves the ACL unchanged, as
in `TestGrantModelControllerFailure` and `TestRevokeModelControllerFailure`. -/
theorem C5_grant_revoke_controller_first_witness :
    Jem.grantModel { read := [] } "alice" "superpowers" =
      ({ read := [] }, some "\"superpowers\" model access not valid") ∧
    Jem.revokeModel { read := [] } "alice" "superpowers" =
      ({ read := [] }, some "\"superpowers\" model access not valid") :=
  C5_grant_revoke_controller_first { read := [] } "alice" "superpowers" (by decide)

/-- The masking step never lets a `NotFound` through. -/
theorem JujuAPI.maskNotFound_ne_notFound (e : JujuAPI.JujuErr) :
    JujuAPI.maskNotFound e ≠ .notFound := by
  unfold JujuAPI.maskNotFound
  by_cases h : e = .notFound <;> simp [h]

/-- C6: at the external API boundary, ModelInfo, ModifyModelAccess and the
model dump operations map an underlying `NotFound` to `Unauthorized`, and no
result of these operations ever carries a `NotFound` error, so a caller
cannot distinguish a missing model from one it may not see. -/
theorem C6_notfound_masked_as_unauthorized
    (parseTag parseModelTag parseUserTag : String → Except JujuAPI.JujuErr String)
    (getModelInfo : String → Except JujuAPI.JujuErr Unit)
    (grant revoke : String → String → Except JujuAPI.JujuErr Unit)
    (modelWithConnection : String → Except JujuAPI.JujuErr Unit) :
    (∀ tag uuid, parseTag tag = .ok uuid → getModelInfo uuid = .error .notFound →
      JujuAPI.modelInfoResultError parseTag getModelInfo tag =
        some JujuAPI.JujuErr.unauthorized) ∧
    (∀ tags o, o ∈ JujuAPI.modelInfoResults parseTag getModelInfo tags →
      o ≠ some JujuAPI.JujuErr.notFound) ∧
    (∀ mt ut uuid user, parseModelTag mt = .ok uuid → parseUserTag ut = .ok user →
      grant uuid user = .error .notFound →
      JujuAPI.modifyModelAccessResultError parseModelTag parseUserTag grant revoke
        mt ut .grant = some JujuAPI.JujuErr.unauthorized) ∧
    (∀ mt ut uuid user, parseModelTag mt = .ok uuid → parseUserTag ut = .ok user →
      revoke uuid user = .error .notFound →
      JujuAPI.modifyModelAccessResultError parseModelTag parseUserTag grant revoke
        mt ut .revoke = some JujuAPI.JujuErr.unauthorized) ∧
    (∀ mt ut a,
      JujuAPI.modifyModelAccessResultError parseModelTag parseUserTag grant revoke
        mt ut a ≠ some JujuAPI.JujuErr.notFound) ∧
    (∀ tag, modelWithConnection tag = .error .notFound →
      JujuAPI.dumpModelResultError modelWithConnection tag =
        some JujuAPI.JujuErr.unauthorized) ∧
    (∀ tag, JujuAPI.dumpModelResultError modelWithConnection tag ≠
      some JujuAPI.JujuErr.notFound) := by
  refine ⟨?_, ?_, ?_, ?_, ?_, ?_, ?_⟩
  · intro tag uuid hp hg
    simp [JujuAPI.modelInfoResultError, hp, hg, JujuAPI.maskNotFound]
  · intro tags o ho
    simp only [JujuAPI.modelInfoResults, List.mem_map] at ho
    obtain ⟨tag, -, rfl⟩ := ho
    unfold JujuAPI.modelInfoResultError
    cases hp : parseTag tag with
    | error e => simp
    | ok uuid =>
      cases hg : getModelInfo uuid with
      | ok u => simp [hg]
      | error e => simpa [hg] using JujuAPI.maskNotFound_ne_notFound e
  · intro mt ut uuid user hm hu hg
    simp [JujuAPI.modifyModelAccessResultError, hm, hu, hg, JujuAPI.maskNotFound]
  · intro mt ut uuid user hm hu hr
    simp [JujuAPI.modifyModelAccessResultError, hm, hu, hr, JujuAPI.maskNotFound]
  · intro mt ut a
    unfold JujuAPI.modifyModelAccessResultError
    cases parseModelTag mt with
    | error e => simp
    | ok uuid =>
      cases parseUserTag ut with
      | error e => simp
      | ok user =>
        simp only []
        cases a with
        | grant =>
          cases hg : grant uuid user with
          | ok u => simp [hg]
          | error e => simpa [hg] using JujuAPI.maskNotFound_ne_notFound e
        | revoke =>
          cases hg : revoke uuid user with
          | ok u => simp [hg]
          | error e => simpa [hg] using JujuAPI.maskNotFound_ne_notFound e
        | invalid s => simpa using JujuAPI.maskNotFound_ne_notFound .badRequest
  · intro tag h
    simp [JujuAPI.dumpModelResultError, h, JujuAPI.maskNotFound]
  · intro tag
    unfold JujuAPI.dumpModelResultError
    cases modelWithConnection tag with
    | ok u => simp
    | error e => simpa using JujuAPI.maskNotFound_ne_notFound e

/-- C6, witness: with a store in which model `u1` is absent (`NotFound`), the
client-visible error of ModelInfo, of a grant and a revoke through
ModifyModelAccess, and of a model dump for `u1` is `Unauthorized`. -/
theorem C6_notfound_masked_as_unauthorized_witness :
    JujuAPI.modelInfoResultError
      (fun t => if t = "model-u1" then .ok "u1" else .error .badRequest)
      (fun _ => .error .notFound) "model-u1" = some JujuAPI.JujuErr.unauthorized ∧
    JujuAPI.modifyModelAccessResultError
      (fun t => if t = "model-u1" then .ok "u1" else .error .badRequest)
      (fun t => if t = "user-alice" then .ok "alice" else .error .badRequest)
      (fun _ _ => .error .notFound) (fun _ _ => .error .notFound)
      "model-u1" "user-alice" .grant = some JujuAPI.JujuErr.unauthorized ∧
    JujuAPI.modifyModelAccessResultError
      (fun t => if t = "model-u1" then .ok "u1" else .error .badRequest)
      (fun t => if t = "user-alice" then .ok "alice" else .error .badRequest)
      (fun _ _ => .error .notFound) (fun _ _ => .error .notFound)
      "model-u1" "user-alice" .revoke = some JujuAPI.JujuErr.unauthorized ∧
    JujuAPI.dumpModelResultError (fun _ => .error .notFound) "model-u1" =
      some JujuAPI.JujuErr.unauthorized :=
  ⟨(C6_notfound_masked_as_unauthorized
      (fun t => if t = "model-u1" then .ok "u1" else .error .badRequest)
      (fun t => if t = "model-u1" then .ok "u1" else .error .badRequest)
      (fun t => if t = "user-alice" then .ok "alice" else .error .badRequest)
      (fun _ => .error .notFound) (fun _ _ => .error .notFound)
      (fun _ _ => .error .notFound) (fun _ => .error .notFound)).1
      "model-u1" "u1" rfl rfl,
   (C6_notfound_masked_as_unauthorized
      (fun t => if t = "model-u1" then .ok "u1" else .error .badRequest)
      (fun t => if t = "model-u1" then .ok "u1" else .error .badRequest)
      (fun t => if t = "user-alice" then .ok "alice" else .error .badRequest)
      (fun _ => .error .notFound) (fun _ _ => .error .notFound)
      (fun _ _ => .error .notFound) (fun _ => .error .notFound)).2.2.1
      "model-u1" "user-alice" "u1" "alice" rfl rfl rfl,
   (C6_notfound_masked_as_unauthorized
      (fun t => if t = "model-u1" then .ok "u1" else .error .badRequest)
      (fun t => if t = "model-u1" then .ok "u1" else .error .badRequest)
      (fun t => if t = "user-alice" then .ok "alice" else .error .badRequest)
      (fun _ => .error .notFound) (fun _ _ => .error .notFound)
      (fun _ _ => .error .notFound) (fun _ => .error .notFound)).2.2.2.1
      "model-u1" "user-alice" "u1" "alice" rfl rfl rfl,
   (C6_notfound_masked_as_unauthorized
      (fun t => if t = "model-u1" then .ok "u1" else .error .badRequest)
      (fun t => if t = "model-u1" then .ok "u1" else .error .badRequest)
      (fun t => if t = "user-alice" then .ok "alice" else .error .badRequest)
      (fun _ => .error .notFound) (fun _ _ => .error .notFound)
      (fun _ _ => .error .notFound) (fun _ => .error .notFound)).2.2.2.2.2.1
      "model-u1" rfl⟩

/-- C9: an RPC whose `(root, version, method)` tuple is not in the registered
facade tables receives a `CallNotImplemented` error (whether the facade and
version are unregistered or the registered facade lacks the method), except
that any call to the Admin facade with version below 3 receives an error with
code `CodeNotSupported` and message
`JAAS does not support login from old clients`. -/
theorem C9_find_method_dispatch (user root : String) (version : Int) (method : String) :
    (root = "Admin" → version < 3 →
      JujuAPI.findMethod user root version method =
        .requestError JujuAPI.codeNotSupported
          "JAAS does not support login from old clients") ∧
    (¬(root = "Admin" ∧ version < 3) →
      (∀ rn, JujuAPI.facades.lookup (root, version) = some rn →
        method ∉ JujuAPI.facadeMethods rn) →
      JujuAPI.findMethod user root version method =
        .callNotImplemented root version) := by
  constructor
  · rintro rfl hv
    simp [JujuAPI.findMethod, hv]
  · intro hnot hm
    unfold JujuAPI.findMethod
    by_cases hu : user = "" ∧ root ≠ "Admin"
    · simp [hu]
    · rw [if_neg hu, if_neg hnot]
      cases hl : JujuAPI.facades.lookup (root, version) with
      | none => simp
      | some rn => simp [hm rn hl]

/-- C9, witness: `Admin` version 2 receives the not-supported error; the
unregistered tuple `(ModelManager, 3, ModelInfo)` and the unknown method
`DestroyModels` on the registered `(ModelManager, 2)` facade both receive
`CallNotImplemented`. -/
theorem C9_find_method_dispatch_witness :
    JujuAPI.findMethod "" "Admin" 2 "Login" =
      .requestError JujuAPI.codeNotSupported
        "JAAS does not support login from old clients" ∧
    JujuAPI.findMethod "bob" "ModelManager" 3 "ModelInfo" =
      .callNotImplemented "ModelManager" 3 ∧
    JujuAPI.findMethod "bob" "ModelManager" 2 "DestroyModels" =
      .callNotImplemented "ModelManager" 2 :=
  ⟨(C9_find_method_dispatch "" "Admin" 2 "Login").1 rfl (by decide),
   (C9_find_method_dispatch "bob" "ModelManager" 3 "ModelInfo").2 (by decide)
     (by
       intro rn h
       rw [show JujuAPI.facades.lookup ("ModelManager", (3 : Int)) =
         (none : Option String) from by decide] at h
       exact Option.noConfusion h),
   (C9_find_method_dispatch "bob" "ModelManager" 2 "DestroyModels").2 (by decide)
     (by
       intro rn h
       rw [show JujuAPI.facades.lookup ("ModelManager", (2 : Int)) =
         some "ModelManager" from by decide] at h
       injection h with h2
       subst h2
       decide)⟩

/-- `withModelInfo` never changes the entity set. -/
theorem Monitor.withModelInfo_entities (w : Monitor.WatcherState) (uuid : String)
    (f : Monitor.ModelInfoW → Monitor.ModelInfoW) :
    (w.withModelInfo uuid f).entities = w.entities := by
  unfold Monitor.WatcherState.withModelInfo
  cases w.models.lookup uuid <;> rfl

/-- `withModelInfo` never changes the statistics. -/
theorem Monitor.withModelInfo_stats (w : Monitor.WatcherState) (uuid : String)
    (f : Monitor.ModelInfoW → Monitor.ModelInfoW) :
    (w.withModelInfo uuid f).stats = w.stats := by
  unfold Monitor.WatcherState.withModelInfo
  cases w.models.lookup uuid <;> rfl

/-- `adjustCount` never changes the per-model map. -/
theorem Monitor.adjustCount_models (w : Monitor.WatcherState)
    (get : Monitor.ControllerStats → Int)
    (set : Monitor.ControllerStats → Int → Monitor.ControllerStats) (d : Monitor.Delta) :
    ((w.adjustCount get set d).1).models = w.models := by
  unfold Monitor.WatcherState.adjustCount
  by_cases h : (Monitor.adjustEntities w.entities d.removed d.entity).2 ≠ 0 <;> simp [h]

/-- Looking up a UUID the map does not yet hold, after `withModelInfo`, finds
the freshly created entry with `f` applied. -/
theorem Monitor.withModelInfo_lookup_fresh (w : Monitor.WatcherState) (uuid : String)
    (f : Monitor.ModelInfoW → Monitor.ModelInfoW) (h : w.models.lookup uuid = none) :
    (w.withModelInfo uuid f).models.lookup uuid = some (f (Monitor.newModelInfo uuid)) := by
  unfold Monitor.WatcherState.withModelInfo
  rw [h]
  simp [List.lookup]

/-- `setLife` on a fresh entry keeps the full change mask. -/
theorem Monitor.setLife_newModelInfo_changed (uuid l : String) :
    ((Monitor.newModelInfo uuid).setLife l).changed = Monitor.allChange := by
  unfold Monitor.ModelInfoW.setLife Monitor.newModelInfo
  by_cases h : l ≠ "" <;>
    simp [h, Monitor.allChange, Monitor.lifeChange, Monitor.countsChange]

/-- `adjustCount` on a fresh entry keeps the full change mask. -/
theorem Monitor.adjustCountInfo_newModelInfo_changed (uuid : String)
    (k : Monitor.EntityCount) (n : Int) :
    ((Monitor.newModelInfo uuid).adjustCount k n).changed = Monitor.allChange := by
  unfold Monitor.ModelInfoW.adjustCount Monitor.newModelInfo
  by_cases h : n ≠ 0 <;>
    simp [h, Monitor.allChange, Monitor.lifeChange, Monitor.countsChange]

/-- An entry whose change mask is full triggers both flush updates. -/
theorem Monitor.flushEmits_allChange (info : Monitor.ModelInfoW)
    (h : info.changed = Monitor.allChange) :
    Monitor.flushEmitsLife info = true ∧ Monitor.flushEmitsCounts info = true := by
  unfold Monitor.flushEmitsLife Monitor.flushEmitsCounts
  rw [h]
  exact ⟨by decide, by decide⟩

/-- C10: the first time the delta reducer meets a model UUID — whether via a
model delta or via a unit, machine or application delta arriving first — it
creates the per-model entry with every changed bit set and all counts zero,
so the first flush after the creation issues both a model-life update and a
model-counts update for that model. -/
theorem C10_fresh_model_entry (w : Monitor.WatcherState) (d : Monitor.Delta)
    (h : w.models.lookup d.entity.modelUUID = none) :
    (Monitor.newModelInfo d.entity.modelUUID).counts =
      { unitCount := 0, machineCount := 0, applicationCount := 0 } ∧
    Monitor.flushEmitsLife (Monitor.newModelInfo d.entity.modelUUID) = true ∧
    Monitor.flushEmitsCounts (Monitor.newModelInfo d.entity.modelUUID) = true ∧
    ∃ info, (w.addDelta d).models.lookup d.entity.modelUUID = some info ∧
      Monitor.flushEmitsLife info = true ∧ Monitor.flushEmitsCounts info = true := by
  refine ⟨rfl, (Monitor.flushEmits_allChange _ rfl).1,
    (Monitor.flushEmits_allChange _ rfl).2, ?_⟩
  rcases d with ⟨removed, ⟨kind, muuid, eid⟩, life⟩
  cases kind
  case model =>
    simp only [Monitor.WatcherState.addDelta]
    refine ⟨_, Monitor.withModelInfo_lookup_fresh _ _ _ ?_, ?_⟩
    · rw [Monitor.adjustCount_models]
      exact h
    · exact Monitor.flushEmits_allChange _ (Monitor.setLife_newModelInfo_changed _ _)
  case unit =>
    simp only [Monitor.WatcherState.addDelta]
    refine ⟨_, Monitor.withModelInfo_lookup_fresh _ _ _ ?_, ?_⟩
    · rw [Monitor.adjustCount_models]
      exact h
    · exact Monitor.flushEmits_allChange _
        (Monitor.adjustCountInfo_newModelInfo_changed _ _ _)
  case application =>
    simp only [Monitor.WatcherState.addDelta]
    refine ⟨_, Monitor.withModelInfo_lookup_fresh _ _ _ ?_, ?_⟩
    · rw [Monitor.adjustCount_models]
      exact h
    · exact Monitor.flushEmits_allChange _
        (Monitor.adjustCountInfo_newModelInfo_changed _ _ _)
  case machine =>
    simp only [Monitor.WatcherState.addDelta]
    refine ⟨_, Monitor.withModelInfo_lookup_fresh _ _ _ ?_, ?_⟩
    · rw [Monitor.adjustCount_models]
      exact h
    · exact Monitor.flushEmits_allChange _
        (Monitor.adjustCountInfo_newModelInfo_changed _ _ _)

/-- C7, counterexample: the claim says that before a fresh watcher session
every model of the controller whose life is `dying` is queried on the
controller and deleted exactly when the controller answers `NotFound`. A
dying model whose UUID is not yet valid (still initialising) is skipped by
`checkControllerModels`: here the controller would answer `NotFound` for
every UUID, yet the model is neither queried nor deleted. -/
theorem C7_dying_model_check_counterexample :
    Jimm.watchControllerInit (fun _ => .error .notFound) 7
        [{ id := 1, uuid := { string := "u1", valid := false }, controllerID := 7,
           life := "dying" }] =
      .ok ({ store := [{ id := 1, uuid := { string := "u1", valid := false },
                         controllerID := 7, life := "dying" }], queried := [] }, []) := rfl

/-- C7 (amended): before a fresh watcher session the monitor enumerates the
store's models of the controller; models whose UUID is not valid are skipped;
for every remaining model whose life is `dying` it queries the controller for
that model's info, and the model is deleted from the local store exactly when
the controller responds `NotFound`: an OK response leaves the row in place
and any other error aborts the reconciliation with the row in place. -/
theorem C7_dying_model_reconciliation (api : String → Except Jimm.ErrCode Unit)
    (st : Jimm.WatchSt) (m : Jimm.DbModel) :
    (m.life ≠ "dying" → Jimm.checkDyingModel api st m = .ok st) ∧
    (m.life = "dying" → api m.uuid.string = .ok () →
      Jimm.checkDyingModel api st m =
        .ok { st with queried := st.queried ++ [m.uuid.string] }) ∧
    (m.life = "dying" → api m.uuid.string = .error .notFound →
      Jimm.checkDyingModel api st m =
        .ok { store := Jimm.deleteModelRow st.store m.id,
              queried := st.queried ++ [m.uuid.string] }) ∧
    (∀ e, m.life = "dying" → api m.uuid.string = .error e → e ≠ .notFound →
      Jimm.checkDyingModel api st m = .error e) ∧
    (∀ check rest mids, m.uuid.valid = false →
      Jimm.checkControllerModels check (m :: rest) st mids =
        Jimm.checkControllerModels check rest st mids) ∧
    (∀ x, x ∈ Jimm.deleteModelRow st.store m.id ↔ (x ∈ st.store ∧ x.id ≠ m.id)) := by
  refine ⟨?_, ?_, ?_, ?_, ?_, ?_⟩
  · intro h
    simp [Jimm.checkDyingModel, h]
  · intro h1 h2
    simp [Jimm.checkDyingModel, h1, h2]
  · intro h1 h2
    simp [Jimm.checkDyingModel, h1, h2]
  · intro e h1 h2 h3
    simp [Jimm.checkDyingModel, h1, h2, h3]
  · intro check rest mids h
    rw [Jimm.checkControllerModels]
    simp [h]
  · intro x
    simp [Jimm.deleteModelRow, List.mem_filter]

/-- C7, witness: with a store holding a dying model `u1` (which the
controller reports `NotFound`), an alive model `u2`, and a dying model with
an invalid UUID, the reconciliation deletes exactly `u1`, leaves `u2`
unqueried, and skips the invalid-UUID model. -/
theorem C7_dying_model_reconciliation_witness :
    Jimm.checkDyingModel
        (fun u => if u = "u1" then .error .notFound else .ok ())
        { store := [{ id := 1, uuid := { string := "u1", valid := true },
                      controllerID := 7, life := "dying" },
                    { id := 2, uuid := { string := "u2", valid := true },
                      controllerID := 7, life := "alive" }], queried := [] }
        { id := 2, uuid := { string := "u2", valid := true }, controllerID := 7,
          life := "alive" } =
      .ok { store := [{ id := 1, uuid := { string := "u1", valid := true },
                        controllerID := 7, life := "dying" },
                      { id := 2, uuid := { string := "u2", valid := true },
                        controllerID := 7, life := "alive" }], queried := [] } ∧
    Jimm.checkDyingModel
        (fun u => if u = "u1" then .error .notFound else .ok ())
        { store := [{ id := 1, uuid := { string := "u1", valid := true },
                      controllerID := 7, life := "dying" },
                    { id := 2, uuid := { string := "u2", valid := true },
                      controllerID := 7, life := "alive" }], queried := [] }
        { id := 1, uuid := { string := "u1", valid := true }, controllerID := 7,
          life := "dying" } =
      .ok { store := Jimm.deleteModelRow
              [{ id := 1, uuid := { string := "u1", valid := true },
                 controllerID := 7, life := "dying" },
               { id := 2, uuid := { string := "u2", valid := true },
                 controllerID := 7, life := "alive" }] 1,
            queried := [] ++ ["u1"] } ∧
    Jimm.checkDyingModel (fun _ => .ok ())
        { store := [], queried := [] }
        { id := 3, uuid := { string := "u3", valid := true }, controllerID := 7,
          life := "dying" } =
      .ok { store := [], queried := [] ++ ["u3"] } ∧
    Jimm.checkDyingModel (fun _ => .error (.other "boom"))
        { store := [], queried := [] }
        { id := 3, uuid := { string := "u3", valid := true }, controllerID := 7,
          life := "dying" } = .error (.other "boom") ∧
    Jimm.checkControllerModels (Jimm.checkDyingModel (fun _ => .error .notFound))
        [{ id := 4, uuid := { string := "u4", valid := false }, controllerID := 7,
           life := "dying" }] { store := [], queried := [] } [] =
      Jimm.checkControllerModels (Jimm.checkDyingModel (fun _ => .error .notFound))
        [] { store := [], queried := [] } [] :=
  ⟨(C7_dying_model_reconciliation
      (fun u => if u = "u1" then .error .notFound else .ok ())
      { store := [{ id := 1, uuid := { string := "u1", valid := true },
                    controllerID := 7, life := "dying" },
                  { id := 2, uuid := { string := "u2", valid := true },
                    controllerID := 7, life := "alive" }], queried := [] }
      { id := 2, uuid := { string := "u2", valid := true }, controllerID := 7,
        life := "alive" }).1 (by decide),
   (C7_dying_model_reconciliation
      (fun u => if u = "u1" then .error .notFound else .ok ())
      { store := [{ id := 1, uuid := { string := "u1", valid := true },
                    controllerID := 7, life := "dying" },
                  { id := 2, uuid := { string := "u2", valid := true },
                    controllerID := 7, life := "alive" }], queried := [] }
      { id := 1, uuid := { string := "u1", valid := true }, controllerID := 7,
        life := "dying" }).2.2.1 rfl rfl,
   (C7_dying_model_reconciliation (fun _ => .ok ()) { store := [], queried := [] }
      { id := 3, uuid := { string := "u3", valid := true }, controllerID := 7,
        life := "dying" }).2.1 rfl rfl,
   (C7_dying_model_reconciliation (fun _ => .error (.other "boom"))
      { store := [], queried := [] }
      { id := 3, uuid := { string := "u3", valid := true }, controllerID := 7,
        life := "dying" }).2.2.2.1 (.other "boom") rfl rfl (by decide),
   (C7_dying_model_reconciliation (fun _ => .error .notFound)
      { store := [], queried := [] }
      { id := 4, uuid := { string := "u4", valid := false }, controllerID := 7,
        life := "dying" }).2.2.2.2.1
      (Jimm.checkDyingModel (fun _ => .error .notFound)) [] [] rfl⟩

/-- Application upserts leave the model table alone. -/
theorem Jimm.updateApplication_models (db : Jimm.Database) (i : Nat) (n : String) :
    (Jimm.updateApplication db i n).models = db.models := by
  unfold Jimm.updateApplication
  split <;> rfl

/-- Machine upserts leave the model table alone. -/
theorem Jimm.updateMachine_models (db : Jimm.Database) (i : Nat) (n : String) :
    (Jimm.updateMachine db i n).models = db.models := by
  unfold Jimm.updateMachine
  split <;> rfl

/-- Unit upserts leave the model table alone. -/
theorem Jimm.updateUnit_models (db : Jimm.Database) (i : Nat) (n : String) :
    (Jimm.updateUnit db i n).models = db.models := by
  unfold Jimm.updateUnit
  split <;> rfl

/-- A model upsert never removes a primary key from the model table. -/
theorem Jimm.updateModel_ids (db : Jimm.Database) (mid : Nat) (life : String) (i : Nat)
    (h : i ∈ db.models.map (fun x => x.id)) :
    i ∈ (Jimm.updateModel db mid life).models.map (fun x => x.id) := by
  unfold Jimm.updateModel
  cases hg : Jimm.getModelById db.models mid with
  | some m =>
    simp only [List.map_map]
    have hfn : ((fun x => x.id) ∘
        (fun x => if x.id = mid then { x with life := life } else x)) =
        (fun (x : Jimm.DbModel) => x.id) := by
      funext x
      by_cases hx : x.id = mid <;> simp [hx]
    rw [hfn]
    exact h
  | none =>
    simp only [List.map_append]
    exact List.mem_append_left _ h

/-- A removed model delta for a resolvable model reduces to `deleteModel`. -/
theorem Jimm.handleDelta_model_removed (f : String → Nat) (db : Jimm.Database)
    (d : Jimm.WDelta) (hk : d.kind = "model") (hr : d.removed = true)
    (h0 : f d.modelUUID ≠ 0) :
    Jimm.handleDelta f db d = Jimm.deleteModel db (f d.modelUUID) := by
  unfold Jimm.handleDelta
  simp [hk, hr, h0]

/-- C8: the watcher removes a model row exactly when a removed model delta
arrives for a model whose locally recorded life is `dying`; a removed model
delta for a model whose life is anything else leaves the model table
unchanged, and no other delta ever removes a model row. -/
theorem C8_watcher_model_removal (f : String → Nat) (db : Jimm.Database)
    (d : Jimm.WDelta) :
    (d.kind = "model" → d.removed = true →
      (∀ m, Jimm.getModelById db.models (f d.modelUUID) = some m → m.life ≠ "dying") →
      Jimm.handleDelta f db d = db) ∧
    (∀ m, d.kind = "model" → d.removed = true → f d.modelUUID ≠ 0 →
      f d.modelUUID = m.id → Jimm.getModelById db.models m.id = some m →
      m.life = "dying" →
      (Jimm.handleDelta f db d).models = Jimm.deleteModelRow db.models m.id) ∧
    (∀ i, i ∈ db.models.map (fun x => x.id) →
      i ∉ (Jimm.handleDelta f db d).models.map (fun x => x.id) →
      d.kind = "model" ∧ d.removed = true ∧ f d.modelUUID = i ∧
        ∃ m, m ∈ db.models ∧ m.id = i ∧ m.life = "dying") := by
  refine ⟨?_, ?_, ?_⟩
  · intro hk hr hnd
    by_cases h0 : f d.modelUUID = 0
    · unfold Jimm.handleDelta
      simp [h0]
    · rw [Jimm.handleDelta_model_removed f db d hk hr h0]
      unfold Jimm.deleteModel
      cases hg : Jimm.getModelById db.models (f d.modelUUID) with
      | none => rfl
      | some m => simp [hnd m hg]
  · intro m hk hr h0 hfm hg hlife
    rw [Jimm.handleDelta_model_removed f db d hk hr h0]
    unfold Jimm.deleteModel
    rw [hfm, hg]
    simp [hlife]
  · intro i hin hout
    by_cases h0 : f d.modelUUID = 0
    · exact absurd (by rw [show Jimm.handleDelta f db d = db by
        unfold Jimm.handleDelta; simp [h0]]; exact hin) hout
    by_cases hk1 : d.kind = "application"
    · refine absurd ?_ hout
      have hm : (Jimm.handleDelta f db d).models = db.models := by
        unfold Jimm.handleDelta
        by_cases hr : d.removed = true <;>
          simp [h0, hk1, hr, Jimm.updateApplication_models]
      rw [hm]
      exact hin
    by_cases hk2 : d.kind = "machine"
    · refine absurd ?_ hout
      have hm : (Jimm.handleDelta f db d).models = db.models := by
        unfold Jimm.handleDelta
        by_cases hr : d.removed = true <;>
          simp [h0, hk1, hk2, hr, Jimm.updateMachine_models]
      rw [hm]
      exact hin
    by_cases hk3 : d.kind = "model"
    case neg =>
      by_cases hk4 : d.kind = "unit"
      · refine absurd ?_ hout
        have hm : (Jimm.handleDelta f db d).models = db.models := by
          unfold Jimm.handleDelta
          by_cases hr : d.removed = true <;>
            simp [h0, hk1, hk2, hk3, hk4, hr, Jimm.updateUnit_models]
        rw [hm]
        exact hin
      · refine absurd ?_ hout
        have hm : (Jimm.handleDelta f db d).models = db.models := by
          unfold Jimm.handleDelta
          simp [h0, hk1, hk2, hk3, hk4]
        rw [hm]
        exact hin
    case pos =>
      by_cases hr : d.removed = true
      case neg =>
        refine absurd ?_ hout
        have hm : (Jimm.handleDelta f db d).models =
            (Jimm.updateModel db (f d.modelUUID) d.life).models := by
          unfold Jimm.handleDelta
          simp [h0, hk1, hk2, hk3, hr]
        rw [hm]
        exact Jimm.updateModel_ids db (f d.modelUUID) d.life i hin
      case pos =>
        rw [Jimm.handleDelta_model_removed f db d hk3 hr h0] at hout
        cases hg : Jimm.getModelById db.models (f d.modelUUID) with
        | none =>
          rw [show (Jimm.deleteModel db (f d.modelUUID)).models = db.models by
            unfold Jimm.deleteModel; rw [hg]] at hout
          exact absurd hin hout
        | some m =>
          by_cases hl : m.life ≠ "dying"
          · rw [show (Jimm.deleteModel db (f d.modelUUID)).models = db.models by
              unfold Jimm.deleteModel; rw [hg]; simp [hl]] at hout
            exact absurd hin hout
          · have hld : m.life = "dying" := not_not.mp hl
            rw [show (Jimm.deleteModel db (f d.modelUUID)).models =
                Jimm.deleteModelRow db.models (f d.modelUUID) by
              unfold Jimm.deleteModel; rw [hg]; simp [hl]] at hout
            have hg2 : List.find? (fun x => decide (x.id = f d.modelUUID)) db.models =
                some m := hg
            have hmem : m ∈ db.models := List.mem_of_find?_eq_some hg2
            have hid : m.id = f d.modelUUID := by
              have hp := List.find?_some hg2
              simpa using hp
            by_cases him : i = f d.modelUUID
            · exact ⟨hk3, hr, him.symm, m, hmem, hid.trans him.symm, hld⟩
            · obtain ⟨x, hx, hxid⟩ := List.mem_map.mp hin
              refine absurd ?_ hout
              simp only [Jimm.deleteModelRow, List.mem_map]
              refine ⟨x, List.mem_filter.mpr ⟨hx, ?_⟩, hxid⟩
              simp only [decide_eq_true_eq]
              rw [hxid]
              exact him

/-- C8, witness: a removed model delta for a model whose local life is
`alive` leaves the store untouched; the same delta for a `dying` model
deletes exactly that row, and the disappearance of a row implies the delta
was a removed model delta for a dying model. -/
theorem C8_watcher_model_removal_witness :
    Jimm.handleDelta (fun u => if u = "m1" then 1 else 0)
        { models := [{ id := 1, uuid := { string := "m1", valid := true },
                       controllerID := 7, life := "alive" }] }
        { removed := true, kind := "model", modelUUID := "m1", id := "m1" } =
      { models := [{ id := 1, uuid := { string := "m1", valid := true },
                     controllerID := 7, life := "alive" }] } ∧
    (Jimm.handleDelta (fun u => if u = "m1" then 1 else 0)
        { models := [{ id := 1, uuid := { string := "m1", valid := true },
                       controllerID := 7, life := "dying" }] }
        { removed := true, kind := "model", modelUUID := "m1", id := "m1" }).models =
      Jimm.deleteModelRow
        [{ id := 1, uuid := { string := "m1", valid := true },
           controllerID := 7, life := "dying" }] 1 ∧
    ((("model" : String) = "model") ∧ ((true : Bool) = true) ∧
      (fun u => if u = "m1" then 1 else 0) "m1" = 1 ∧
      ∃ m : Jimm.DbModel,
        m ∈ ([{ id := 1, uuid := { string := "m1", valid := true },
                controllerID := 7, life := "dying" }] : List Jimm.DbModel) ∧
        m.id = 1 ∧ m.life = "dying") :=
  ⟨(C8_watcher_model_removal (fun u => if u = "m1" then 1 else 0)
      { models := [{ id := 1, uuid := { string := "m1", valid := true },
                     controllerID := 7, life := "alive" }] }
      { removed := true, kind := "model", modelUUID := "m1", id := "m1" }).1 rfl rfl
      (by
        intro m h
        injection h with h2
        rw [← h2]
        decide),
   (C8_watcher_model_removal (fun u => if u = "m1" then 1 else 0)
      { models := [{ id := 1, uuid := { string := "m1", valid := true },
                     controllerID := 7, life := "dying" }] }
      { removed := true, kind := "model", modelUUID := "m1", id := "m1" }).2.1
      { id := 1, uuid := { string := "m1", valid := true }, controllerID := 7,
        life := "dying" } rfl rfl (by decide) rfl rfl rfl,
   (C8_watcher_model_removal (fun u => if u = "m1" then 1 else 0)
      { models := [{ id := 1, uuid := { string := "m1", valid := true },
                     controllerID := 7, life := "dying" }] }
      { removed := true, kind := "model", modelUUID := "m1", id := "m1" }).2.2 1
      (by decide) (by decide)⟩

/-- C10, witness: a unit delta for a model never seen before creates the
entry, and the first flush after it issues both updates. -/
theorem C10_fresh_model_entry_witness :
    (Monitor.newModelInfo "m1").counts =
      { unitCount := 0, machineCount := 0, applicationCount := 0 } ∧
    Monitor.flushEmitsLife (Monitor.newModelInfo "m1") = true ∧
    Monitor.flushEmitsCounts (Monitor.newModelInfo "m1") = true ∧
    ∃ info,
      (Monitor.initialWatcherState.addDelta
          { removed := false,
            entity := { kind := .unit, modelUUID := "m1", id := "u1" } }).models.lookup
        "m1" = some info ∧
      Monitor.flushEmitsLife info = true ∧ Monitor.flushEmitsCounts info = true :=
  C10_fresh_model_entry Monitor.initialWatcherState
    { removed := false, entity := { kind := .unit, modelUUID := "m1", id := "u1" } } rfl

/-- Processing one more delta is one `addDelta` step. -/
theorem Monitor.processDeltas_append (ds : List Monitor.Delta) (d : Monitor.Delta) :
    Monitor.processDeltas (ds ++ [d]) = (Monitor.processDeltas ds).addDelta d := by
  unfold Monitor.processDeltas
  rw [List.foldl_append]
  rfl

/-- The last delta for an entity, after appending one delta. -/
theorem Monitor.lastDeltaFor_append (ds : List Monitor.Delta) (d : Monitor.Delta)
    (e : Monitor.EntityId) :
    Monitor.lastDeltaFor (ds ++ [d]) e =
      if d.entity = e then some d else Monitor.lastDeltaFor ds e := by
  unfold Monitor.lastDeltaFor
  rw [List.reverse_append]
  by_cases h : d.entity = e
  · simp [List.find?, h]
  · simp [List.find?, h]

/-- Liveness after appending one delta. -/
theorem Monitor.specLive_append (ds : List Monitor.Delta) (d : Monitor.Delta)
    (e : Monitor.EntityId) :
    Monitor.specLive (ds ++ [d]) e =
      if d.entity = e then !d.removed else Monitor.specLive ds e := by
  unfold Monitor.specLive
  rw [Monitor.lastDeltaFor_append]
  by_cases h : d.entity = e <;> simp [h]

/-- The entity set produced by `adjustCount`. -/
theorem Monitor.adjustCount_entities (w : Monitor.WatcherState)
    (get : Monitor.ControllerStats → Int)
    (set : Monitor.ControllerStats → Int → Monitor.ControllerStats) (d : Monitor.Delta) :
    ((w.adjustCount get set d).1).entities =
      (Monitor.adjustEntities w.entities d.removed d.entity).1 := by
  unfold Monitor.WatcherState.adjustCount
  by_cases h : (Monitor.adjustEntities w.entities d.removed d.entity).2 ≠ 0 <;> simp [h]

/-- The statistics produced by `adjustCount`. -/
theorem Monitor.adjustCount_stats (w : Monitor.WatcherState)
    (get : Monitor.ControllerStats → Int)
    (set : Monitor.ControllerStats → Int → Monitor.ControllerStats) (d : Monitor.Delta) :
    ((w.adjustCount get set d).1).stats =
      (if (Monitor.adjustEntities w.entities d.removed d.entity).2 ≠ 0
       then set w.stats
         (get w.stats + (Monitor.adjustEntities w.entities d.removed d.entity).2)
       else w.stats) := by
  unfold Monitor.WatcherState.adjustCount
  by_cases h : (Monitor.adjustEntities w.entities d.removed d.entity).2 ≠ 0 <;> simp [h]

/-- `addDelta` updates the entity set through `adjustEntities`. -/
theorem Monitor.addDelta_entities (w : Monitor.WatcherState) (d : Monitor.Delta) :
    (w.addDelta d).entities =
      (Monitor.adjustEntities w.entities d.removed d.entity).1 := by
  rcases d with ⟨removed, ⟨kind, muuid, eid⟩, life⟩
  cases kind <;>
    simp only [Monitor.WatcherState.addDelta, Monitor.withModelInfo_entities,
      Monitor.adjustCount_entities]

/-- `addDelta` changes exactly the statistics counter of the delta's kind, by
the diff `adjustEntities` reports. -/
theorem Monitor.addDelta_statOf (w : Monitor.WatcherState) (d : Monitor.Delta)
    (k : Monitor.EntityKind) :
    Monitor.statOf (w.addDelta d).stats k =
      Monitor.statOf w.stats k +
        (if d.entity.kind = k
         then (Monitor.adjustEntities w.entities d.removed d.entity).2
         else 0) := by
  rcases d with ⟨removed, ⟨kind, muuid, eid⟩, life⟩
  cases kind
  case model =>
    simp only [Monitor.WatcherState.addDelta, Monitor.withModelInfo_stats,
      Monitor.adjustCount_stats]
    by_cases h : (Monitor.adjustEntities w.entities removed
        { kind := Monitor.EntityKind.model, modelUUID := muuid, id := eid }).2 ≠ 0
    · rw [if_pos h]
      cases k <;> simp [Monitor.statOf]
    · rw [if_neg h]
      rw [not_not] at h
      cases k <;> simp [Monitor.statOf, h]
  case unit =>
    simp only [Monitor.WatcherState.addDelta, Monitor.withModelInfo_stats,
      Monitor.adjustCount_stats]
    by_cases h : (Monitor.adjustEntities w.entities removed
        { kind := Monitor.EntityKind.unit, modelUUID := muuid, id := eid }).2 ≠ 0
    · rw [if_pos h]
      cases k <;> simp [Monitor.statOf]
    · rw [if_neg h]
      rw [not_not] at h
      cases k <;> simp [Monitor.statOf, h]
  case application =>
    simp only [Monitor.WatcherState.addDelta, Monitor.withModelInfo_stats,
      Monitor.adjustCount_stats]
    by_cases h : (Monitor.adjustEntities w.entities removed
        { kind := Monitor.EntityKind.application, modelUUID := muuid, id := eid }).2 ≠ 0
    · rw [if_pos h]
      cases k <;> simp [Monitor.statOf]
    · rw [if_neg h]
      rw [not_not] at h
      cases k <;> simp [Monitor.statOf, h]
  case machine =>
    simp only [Monitor.WatcherState.addDelta, Monitor.withModelInfo_stats,
      Monitor.adjustCount_stats]
    by_cases h : (Monitor.adjustEntities w.entities removed
        { kind := Monitor.EntityKind.machine, modelUUID := muuid, id := eid }).2 ≠ 0
    · rw [if_pos h]
      cases k <;> simp [Monitor.statOf]
    · rw [if_neg h]
      rw [not_not] at h
      cases k <;> simp [Monitor.statOf, h]

/-- `adjustEntities` keeps the entity set duplicate-free. -/
theorem Monitor.adjustEntities_nodup (ents : List Monitor.EntityId) (rm : Bool)
    (id : Monitor.EntityId) (h : ents.Nodup) :
    (Monitor.adjustEntities ents rm id).1.Nodup := by
  cases rm
  · by_cases hm : id ∈ ents
    · have he : (Monitor.adjustEntities ents false id).1 = ents := by
        unfold Monitor.adjustEntities
        simp [hm]
      rw [he]
      exact h
    · have he : (Monitor.adjustEntities ents false id).1 = id :: ents := by
        unfold Monitor.adjustEntities
        simp [hm]
      rw [he]
      exact List.nodup_cons.mpr ⟨hm, h⟩
  · by_cases hm : id ∈ ents
    · have he : (Monitor.adjustEntities ents true id).1 = ents.erase id := by
        unfold Monitor.adjustEntities
        simp [hm]
      rw [he]
      exact List.Nodup.erase id h
    · have he : (Monitor.adjustEntities ents true id).1 = ents := by
        unfold Monitor.adjustEntities
        simp [hm]
      rw [he]
      exact h

/-- Membership in the entity set after `adjustEntities`. -/
theorem Monitor.adjustEntities_mem (ents : List Monitor.EntityId) (rm : Bool)
    (id e : Monitor.EntityId) (h : ents.Nodup) :
    (e ∈ (Monitor.adjustEntities ents rm id).1) ↔
      (if id = e then rm = false else e ∈ ents) := by
  cases rm
  · by_cases hm : id ∈ ents
    · rw [show (Monitor.adjustEntities ents false id).1 = ents by
        unfold Monitor.adjustEntities; simp [hm]]
      by_cases hid : id = e
      · subst hid
        simp [hm]
      · simp [hid]
    · rw [show (Monitor.adjustEntities ents false id).1 = id :: ents by
        unfold Monitor.adjustEntities; simp [hm]]
      by_cases hid : id = e
      · subst hid
        simp
      · simp [hid, Ne.symm hid]
  · by_cases hm : id ∈ ents
    · rw [show (Monitor.adjustEntities ents true id).1 = ents.erase id by
        unfold Monitor.adjustEntities; simp [hm]]
      rw [List.Nodup.mem_erase_iff h]
      by_cases hid : id = e
      · subst hid
        simp
      · simp [hid, Ne.symm hid]
    · rw [show (Monitor.adjustEntities ents true id).1 = ents by
        unfold Monitor.adjustEntities; simp [hm]]
      by_cases hid : id = e
      · subst hid
        simp [hm]
      · simp [hid]

/-- How the number of entities of one kind moves under `adjustEntities`: by
exactly the reported diff when the touched id satisfies the predicate, and
not at all otherwise. -/
theorem Monitor.adjustEntities_filter_length (ents : List Monitor.EntityId) (rm : Bool)
    (id : Monitor.EntityId) (p : Monitor.EntityId → Bool) (h : ents.Nodup) :
    ((((Monitor.adjustEntities ents rm id).1).filter p).length : Int) =
      ((ents.filter p).length : Int) +
        (if p id = true then (Monitor.adjustEntities ents rm id).2 else 0) := by
  cases rm
  · by_cases hm : id ∈ ents
    · rw [show (Monitor.adjustEntities ents false id).1 = ents by
        unfold Monitor.adjustEntities; simp [hm]]
      rw [show (Monitor.adjustEntities ents false id).2 = 0 by
        unfold Monitor.adjustEntities; simp [hm]]
      simp
    · rw [show (Monitor.adjustEntities ents false id).1 = id :: ents by
        unfold Monitor.adjustEntities; simp [hm]]
      rw [show (Monitor.adjustEntities ents false id).2 = 1 by
        unfold Monitor.adjustEntities; simp [hm]]
      rw [List.filter_cons]
      by_cases hp : p id = true
      · rw [if_pos hp, if_pos hp]
        simp only [List.length_cons]
        push_cast
        omega
      · rw [if_neg hp, if_neg hp]
        simp
  · by_cases hm : id ∈ ents
    · rw [show (Monitor.adjustEntities ents true id).1 = ents.erase id by
        unfold Monitor.adjustEntities; simp [hm]]
      rw [show (Monitor.adjustEntities ents true id).2 = (-1 : Int) by
        unfold Monitor.adjustEntities; simp [hm]]
      have hlen : (ents.filter p).length = ((id :: ents.erase id).filter p).length :=
        ((List.perm_cons_erase hm).filter p).length_eq
      rw [List.filter_cons] at hlen
      by_cases hp : p id = true
      · rw [if_pos hp] at hlen
        rw [if_pos hp, hlen]
        simp only [List.length_cons]
        push_cast
        omega
      · rw [if_neg hp] at hlen
        rw [if_neg hp, hlen]
        simp
    · rw [show (Monitor.adjustEntities ents true id).1 = ents by
        unfold Monitor.adjustEntities; simp [hm]]
      rw [show (Monitor.adjustEntities ents true id).2 = 0 by
        unfold Monitor.adjustEntities; simp [hm]]
      simp

/-- Two statistics records agreeing on every kind are equal. -/
theorem Monitor.stats_ext (a b : Monitor.ControllerStats)
    (h : ∀ k, Monitor.statOf a k = Monitor.statOf b k) : a = b := by
  cases a
  cases b
  have h1 := h .model
  have h2 := h .unit
  have h3 := h .application
  have h4 := h .machine
  simp only [Monitor.statOf] at h1 h2 h3 h4
  simp [h1, h2, h3, h4]

/-- A live entity appeared in some delta of the prefix. -/
theorem Monitor.specLive_mem_map (ds : List Monitor.Delta) (e : Monitor.EntityId)
    (h : Monitor.specLive ds e = true) : e ∈ ds.map (fun d => d.entity) := by
  unfold Monitor.specLive at h
  cases hf : Monitor.lastDeltaFor ds e with
  | none =>
    rw [hf] at h
    simp at h
  | some d =>
    have hf2 : ds.reverse.find? (fun d => decide (d.entity = e)) = some d := hf
    have hd : d ∈ ds.reverse := List.mem_of_find?_eq_some hf2
    have hp : d.entity = e := by
      have := List.find?_some hf2
      simpa using this
    rw [List.mem_reverse] at hd
    rw [← hp]
    exact List.mem_map_of_mem _ hd

/-- The reducer invariant holds after any prefix of deltas. -/
theorem Monitor.reducerInv_processDeltas (ds : List Monitor.Delta) :
    Monitor.ReducerInv ds (Monitor.processDeltas ds) := by
  induction ds using List.reverseRecOn with
  | nil =>
    refine ⟨List.nodup_nil, ?_, ?_⟩
    · intro e
      simp [Monitor.processDeltas, Monitor.initialWatcherState, Monitor.specLive,
        Monitor.lastDeltaFor]
    · intro k
      cases k <;> rfl
  | append_singleton ds d ih =>
    rw [Monitor.processDeltas_append]
    refine ⟨?_, ?_, ?_⟩
    · rw [Monitor.addDelta_entities]
      exact Monitor.adjustEntities_nodup _ _ _ ih.nodup
    · intro e
      rw [Monitor.addDelta_entities,
        Monitor.adjustEntities_mem _ _ _ _ ih.nodup,
        Monitor.specLive_append]
      by_cases hid : d.entity = e
      · rw [if_pos hid, if_pos hid]
        cases hrm : d.removed <;> simp
      · rw [if_neg hid, if_neg hid]
        exact ih.mem e
    · intro k
      rw [Monitor.addDelta_statOf, Monitor.addDelta_entities,
        Monitor.adjustEntities_filter_length _ _ _ _ ih.nodup, ih.stat k]
      by_cases hk : d.entity.kind = k
      · simp [hk]
      · simp [hk]

/-- C1: after the delta reducer consumes any prefix of a delta stream, each
statistics counter (models, units, applications — the source field
`ServiceCount` — and machines) equals the number of distinct entity ids of
that kind whose last delta in the prefix is non-removed, i.e. that have
appeared in a non-removed delta and not been removed since; moreover a
removed delta for an id outside the known-entity set leaves every counter
unchanged, and a repeated non-removed delta for a known id increments
nothing. -/
theorem C1_delta_reducer_stats :
    (∀ (ds : List Monitor.Delta) (k : Monitor.EntityKind),
      Monitor.statOf (Monitor.processDeltas ds).stats k =
        ((Monitor.distinctLiveCount ds k : Nat) : Int)) ∧
    (∀ (w : Monitor.WatcherState) (d : Monitor.Delta), d.removed = true →
      d.entity ∉ w.entities → (w.addDelta d).stats = w.stats) ∧
    (∀ (w : Monitor.WatcherState) (d : Monitor.Delta), d.removed = false →
      d.entity ∈ w.entities → (w.addDelta d).stats = w.stats) := by
  refine ⟨?_, ?_, ?_⟩
  · intro ds k
    have inv := Monitor.reducerInv_processDeltas ds
    rw [inv.stat k]
    have hlen :
        ((Monitor.processDeltas ds).entities.filter
          (fun e => decide (e.kind = k))).length = Monitor.distinctLiveCount ds k := by
      unfold Monitor.distinctLiveCount Monitor.liveIds
      apply List.Perm.length_eq
      apply (List.perm_ext_iff_of_nodup (inv.nodup.filter _)
        ((List.nodup_dedup _).filter _)).2
      intro e
      rw [List.mem_filter, List.mem_filter, inv.mem e, List.mem_dedup]
      constructor
      · rintro ⟨hlive, hk⟩
        refine ⟨Monitor.specLive_mem_map ds e hlive, ?_⟩
        rw [Bool.and_eq_true]
        exact ⟨hk, hlive⟩
      · rintro ⟨hmem, hband⟩
        rw [Bool.and_eq_true] at hband
        exact ⟨hband.2, hband.1⟩
    rw [hlen]
  · intro w d hr hmem
    apply Monitor.stats_ext
    intro k
    rw [Monitor.addDelta_statOf]
    have hz : (Monitor.adjustEntities w.entities d.removed d.entity).2 = 0 := by
      unfold Monitor.adjustEntities
      rw [hr]
      simp [hmem]
    rw [hz]
    simp
  · intro w d hr hmem
    apply Monitor.stats_ext
    intro k
    rw [Monitor.addDelta_statOf]
    have hz : (Monitor.adjustEntities w.entities d.removed d.entity).2 = 0 := by
      unfold Monitor.adjustEntities
      rw [hr]
      simp [hmem]
    rw [hz]
    simp

/-- C1, witness: after a unit delta, a repeat of it, a model delta, a removed
delta for an unknown unit and a removed delta for the known unit, the unit
counter is 0 and the model counter 1, matching the distinct-live counts; the
removed-unknown and repeated-known deltas leave the statistics unchanged. -/
theorem C1_delta_reducer_stats_witness :
    Monitor.statOf
        (Monitor.processDeltas
          [{ removed := false, entity := { kind := .unit, modelUUID := "m1", id := "u1" } },
           { removed := false, entity := { kind := .unit, modelUUID := "m1", id := "u1" } },
           { removed := false, entity := { kind := .model, modelUUID := "m1", id := "m1" },
             life := "alive" },
           { removed := true, entity := { kind := .unit, modelUUID := "m1", id := "u9" } },
           { removed := true, entity := { kind := .unit, modelUUID := "m1", id := "u1" } }]).stats
        .unit =
      ((Monitor.distinctLiveCount
          [{ removed := false, entity := { kind := .unit, modelUUID := "m1", id := "u1" } },
           { removed := false, entity := { kind := .unit, modelUUID := "m1", id := "u1" } },
           { removed := false, entity := { kind := .model, modelUUID := "m1", id := "m1" },
             life := "alive" },
           { removed := true, entity := { kind := .unit, modelUUID := "m1", id := "u9" } },
           { removed := true, entity := { kind := .unit, modelUUID := "m1", id := "u1" } }]
          .unit : Nat) : Int) ∧
    Monitor.statOf
        (Monitor.processDeltas
          [{ removed := false, entity := { kind := .unit, modelUUID := "m1", id := "u1" } },
           { removed := false, entity := { kind := .unit, modelUUID := "m1", id := "u1" } },
           { removed := false, entity := { kind := .model, modelUUID := "m1", id := "m1" },
             life := "alive" },
           { removed := true, entity := { kind := .unit, modelUUID := "m1", id := "u9" } },
           { removed := true, entity := { kind := .unit, modelUUID := "m1", id := "u1" } }]).stats
        .model =
      ((Monitor.distinctLiveCount
          [{ removed := false, entity := { kind := .unit, modelUUID := "m1", id := "u1" } },
           { removed := false, entity := { kind := .unit, modelUUID := "m1", id := "u1" } },
           { removed := false, entity := { kind := .model, modelUUID := "m1", id := "m1" },
             life := "alive" },
           { removed := true, entity := { kind := .unit, modelUUID := "m1", id := "u9" } },
           { removed := true, entity := { kind := .unit, modelUUID := "m1", id := "u1" } }]
          .model : Nat) : Int) ∧
    (Monitor.initialWatcherState.addDelta
        { removed := true,
          entity := { kind := .unit, modelUUID := "m1", id := "u9" } }).stats =
      Monitor.initialWatcherState.stats ∧
    ((Monitor.processDeltas
        [{ removed := false,
           entity := { kind := .unit, modelUUID := "m1", id := "u1" } }]).addDelta
        { removed := false,
          entity := { kind := .unit, modelUUID := "m1", id := "u1" } }).stats =
      (Monitor.processDeltas
        [{ removed := false,
           entity := { kind := .unit, modelUUID := "m1", id := "u1" } }]).stats :=
  ⟨C1_delta_reducer_stats.1
      [{ removed := false, entity := { kind := .unit, modelUUID := "m1", id := "u1" } },
       { removed := false, entity := { kind := .unit, modelUUID := "m1", id := "u1" } },
       { removed := false, entity := { kind := .model, modelUUID := "m1", id := "m1" },
         life := "alive" },
       { removed := true, entity := { kind := .unit, modelUUID := "m1", id := "u9" } },
       { removed := true, entity := { kind := .unit, modelUUID := "m1", id := "u1" } }]
      .unit,
   C1_delta_reducer_stats.1
      [{ removed := false, entity := { kind := .unit, modelUUID := "m1", id := "u1" } },
       { removed := false, entity := { kind := .unit, modelUUID := "m1", id := "u1" } },
       { removed := false, entity := { kind := .model, modelUUID := "m1", id := "m1" },
         life := "alive" },
       { removed := true, entity := { kind := .unit, modelUUID := "m1", id := "u9" } },
       { removed := true, entity := { kind := .unit, modelUUID := "m1", id := "u1" } }]
      .model,
   C1_delta_reducer_stats.2.1 Monitor.initialWatcherState
      { removed := true, entity := { kind := .unit, modelUUID := "m1", id := "u9" } }
      rfl (by decide),
   C1_delta_reducer_stats.2.2
      (Monitor.processDeltas
        [{ removed := false,
           entity := { kind := .unit, modelUUID := "m1", id := "u1" } }])
      { removed := false, entity := { kind := .unit, modelUUID := "m1", id := "u1" } }
      rfl (by decide)⟩
